import Mathlib

/-!
Shallow embedding of the FulfillME marketplace backend
(`src/backend/server.js` together with the Mongoose models
`src/backend/models/User.js`, the Need schema and the Transaction schema)
and of the service-worker offline sync queue (`src/app.js`, `syncNeeds`).

Modelling conventions:
* Mongo ObjectIds are `Nat`; timestamps are `Nat` ticks.
* JS numbers are modelled as `ℚ` (exact rationals), so `amount / 100`
  is exact division as in the concrete inputs the claims exercise.
* A JS field that can hold `null` (the `credits` field, which
  registration sets to `null` for askers) is `Option ℚ`; JS arithmetic
  and comparison coerce `null` to `0`, which `jsNum` makes explicit.
* An uncaught exception inside a route handler is caught by the
  surrounding `try/catch` and becomes an HTTP 500 response; the
  embedding returns a dedicated `serverError` outcome at exactly the
  points where the JS code would throw (a deref of a missing document,
  or a Mongoose validation failure on `save()`).
* Mongoose `save()` validation is modelled per schema: the Transaction
  schema requires `amount ≥ 0` (`min: 0`); the Need schema requires
  trimmed nonempty `title`/`description`, nonempty `location`,
  `budget ≥ 0`, `category` in its closed enum and `timeframe` in its
  enum.  The `escape()` HTML-entity sanitizer of express-validator only
  rewrites HTML-special characters and is not modelled (no claim
  concerns it); `trim()` is modelled.
* Need schema fields not exercised by any claim (`subcategory`,
  `selectedFulfiller`, `isUrgent`, `expiresAt`, `updatedAt`) are
  omitted from the record.
-/

namespace FulfillMe

/-- User roles: the `role` field of the user schema,
enum `['asker', 'fulfiller']`. -/
inductive Role
  | asker
  | fulfiller
deriving DecidableEq

/-- A persisted user document (`src/backend/models/User.js`).
`credits : Option ℚ` models the JS number-or-`null` field: registration
(`server.js` line 107) stores `credits: role === 'fulfiller' ? 0 : null`. -/
structure User where
  id : Nat
  email : String
  phone : String
  password : String
  fullName : String
  location : String
  gender : String
  role : Role
  credits : Option ℚ
  rating : ℚ
  createdAt : Nat
deriving DecidableEq

/-- An embedded offer sub-document of the Need schema. -/
structure Offer where
  fulfiller : Nat
  amount : ℚ
  message : String
  status : String
deriving DecidableEq

/-- A persisted need document (the Need schema). -/
structure Need where
  id : Nat
  user : Nat
  title : String
  description : String
  budget : ℚ
  category : String
  location : String
  timeframe : String
  status : String
  photo : Option String
  contactMethods : List String
  unlockedBy : List Nat
  offers : List Offer
  createdAt : Nat
deriving DecidableEq

/-- A ledger entry (the Transaction schema). -/
structure Transaction where
  user : Nat
  need : Option Nat
  amount : ℚ
  type : String
  mpesaCode : Option String
  status : String
deriving DecidableEq

/-- The persistent store: the three Mongo collections. -/
structure State where
  users : List User
  needs : List Need
  transactions : List Transaction
deriving DecidableEq

/-- Model of `User.findById`. -/
def findUser (s : State) (i : Nat) : Option User :=
  s.users.find? (fun v => v.id == i)

/-- Model of `Need.findById`. -/
def findNeed (s : State) (i : Nat) : Option Need :=
  s.needs.find? (fun v => v.id == i)

/-- Model of `user.save()` on an existing document: replace the
document with the matching `_id`. -/
def updateUser (l : List User) (u : User) : List User :=
  l.map (fun v => if v.id == u.id then u else v)

/-- Model of `need.save()` on an existing document. -/
def updateNeed (l : List Need) (n : Need) : List Need :=
  l.map (fun v => if v.id == n.id then n else v)

/-- JS arithmetic/comparison coerces `null` to `0`. -/
def jsNum (c : Option ℚ) : ℚ := c.getD 0

/-- JS `String.prototype.startsWith`: prefix test, taken on the
character list. -/
def jsStartsWith (v pre : String) : Bool := pre.data.isPrefixOf v.data

/-- JS `String.prototype.trim` (also the Mongoose `trim: true` setter):
strip leading and trailing whitespace, taken on the character list. -/
def jsTrim (v : String) : String :=
  ⟨((v.data.dropWhile (fun c => c.isWhitespace)).reverse.dropWhile
      (fun c => c.isWhitespace)).reverse⟩

/-- The object literal returned by a successful unlock
(`server.js` lines 385-391): exactly these five fields, nothing else. -/
structure ContactInfo where
  fullName : String
  phone : String
  email : String
  location : String
  rating : ℚ
deriving DecidableEq

/-- Outcome of `POST /api/needs/:id/unlock` (`server.js` 336-397). -/
inductive UnlockResult
  | notFound
  | forbidden
  | alreadyUnlocked
  | insufficientCredits
  | serverError
  | ok (contactInfo : ContactInfo)
deriving DecidableEq

/-- HTTP status of each unlock outcome, as sent by the handler. -/
def unlockStatus : UnlockResult → Nat
  | .notFound => 404
  | .forbidden => 403
  | .alreadyUnlocked => 400
  | .insufficientCredits => 400
  | .serverError => 500
  | .ok _ => 200

/-- The unlock handler (`server.js` 336-397), step for step:
find the need (404 if missing), find the caller (a deref of a missing
user throws, hence 500), role gate (403), `unlockedBy.includes` gate
(400), credit gate `user.credits < 1` (400), then the three writes
(caller with one credit less, need with the caller appended to
`unlockedBy`, a completed unlock Transaction of amount 100), and
finally the asker lookup feeding the contact-info response. -/
def unlock (s : State) (needId callerId : Nat) : UnlockResult × State :=
  match findNeed s needId with
  | none => (.notFound, s)
  | some need =>
    match findUser s callerId with
    | none => (.serverError, s)
    | some user =>
      if user.role ≠ Role.fulfiller then (.forbidden, s)
      else if need.unlockedBy.contains callerId then (.alreadyUnlocked, s)
      else if jsNum user.credits < 1 then (.insufficientCredits, s)
      else
        let user' : User := { user with credits := some (jsNum user.credits - 1) }
        let need' : Need := { need with unlockedBy := need.unlockedBy ++ [callerId] }
        let tx : Transaction :=
          { user := callerId, need := some need.id, amount := 100,
            type := "unlock", mpesaCode := none, status := "completed" }
        let s' : State :=
          { users := updateUser s.users user',
            needs := updateNeed s.needs need',
            transactions := s.transactions ++ [tx] }
        match findUser s' need.user with
        | none => (.serverError, s')
        | some asker =>
          (.ok { fullName := asker.fullName, phone := asker.phone,
                 email := asker.email, location := asker.location,
                 rating := asker.rating }, s')

/-- Outcome of `POST /api/credits/add` (`server.js` 400-438). -/
inductive AddCreditsResult
  | invalidCode
  | serverError
  | ok (credits : ℚ)
deriving DecidableEq

/-- HTTP status of each add-credits outcome. -/
def addCreditsStatus : AddCreditsResult → Nat
  | .invalidCode => 400
  | .serverError => 500
  | .ok _ => 200

/-- The add-credits handler (`server.js` 400-438): the only gate is the
payment-code format check (`!mpesaCode || !mpesaCode.startsWith('MPS')`,
with `none` standing for a missing field; an empty string fails the
`startsWith` test just as it fails JS truthiness).  Then
`user.credits += amount / 100` is saved unconditionally — no role check
and no sign check.  The Transaction insert that follows has schema
validation `amount ≥ 0` (`min: 0`): a negative amount makes `save()`
throw after the balance was already updated, so the handler answers 500
with the mutated balance left in place and no ledger entry. -/
def addCredits (s : State) (callerId : Nat) (amount : ℚ)
    (mpesaCode : Option String) : AddCreditsResult × State :=
  match mpesaCode with
  | none => (.invalidCode, s)
  | some code =>
    if ¬ jsStartsWith code "MPS" then (.invalidCode, s)
    else
      match findUser s callerId with
      | none => (.serverError, s)
      | some user =>
        let credits : ℚ := amount / 100
        let newBal : ℚ := jsNum user.credits + credits
        let user' : User := { user with credits := some newBal }
        let s1 : State := { s with users := updateUser s.users user' }
        if amount < 0 then (.serverError, s1)
        else
          let tx : Transaction :=
            { user := callerId, need := none, amount := amount,
              type := "credit_purchase", mpesaCode := some code,
              status := "completed" }
          (.ok newBal, { s1 with transactions := s1.transactions ++ [tx] })

/-- Request body of `POST /api/needs`. -/
structure PostNeedRequest where
  title : String
  description : String
  budget : ℚ
  category : String
  location : String
  timeframe : Option String
  photo : Option String
deriving DecidableEq

/-- Outcome of `POST /api/needs` (`server.js` 204-258). -/
inductive PostNeedResult
  | validationError
  | forbidden
  | serverError
  | ok (needId : Nat)
deriving DecidableEq

/-- HTTP status of each post-need outcome. -/
def postNeedStatus : PostNeedResult → Nat
  | .validationError => 400
  | .forbidden => 403
  | .serverError => 500
  | .ok _ => 201

/-- The closed category enum of the Need schema. -/
def categoryEnum : List String :=
  ["services", "products", "rentals", "pets", "transport", "other"]

/-- The timeframe enum of the Need schema. -/
def timeframeEnum : List String :=
  ["asap", "today", "tomorrow", "week", "month", "flexible"]

/-- Mongoose validation of a Need document on `save()`:
required trimmed-nonempty strings, `budget ≥ 0` (`min: 0`) and the two
closed enums. -/
def needDocValid (n : Need) : Bool :=
  (n.title != "") && (n.description != "") && decide (0 ≤ n.budget) &&
  categoryEnum.contains n.category && (n.location != "") &&
  timeframeEnum.contains n.timeframe

/-- The post-need handler (`server.js` 204-258).  The express-validator
stage only checks `notEmpty` on title/description/category/location and
`isNumeric` on the budget — a numeric budget of any sign passes, and any
nonempty category passes, so those are answered 400 only when a field is
empty.  After the asker role gate, `need.save()` runs the schema
validation `needDocValid`; a violation (negative budget, out-of-enum
category, ...) throws, is caught, and answers 500 with no record
created. -/
def postNeed (s : State) (callerId : Nat) (r : PostNeedRequest)
    (newId now : Nat) : PostNeedResult × State :=
  if r.title = "" ∨ r.description = "" ∨ r.category = "" ∨ r.location = "" then
    (.validationError, s)
  else
    match findUser s callerId with
    | none => (.serverError, s)
    | some user =>
      if user.role ≠ Role.asker then (.forbidden, s)
      else
        let need : Need :=
          { id := newId, user := callerId, title := jsTrim r.title,
            description := jsTrim r.description, budget := r.budget,
            category := r.category, location := r.location,
            timeframe := r.timeframe.getD "flexible", status := "active",
            photo := r.photo, contactMethods := [], unlockedBy := [],
            offers := [], createdAt := now }
        if needDocValid need then (.ok newId, { s with needs := s.needs ++ [need] })
        else (.serverError, s)

/-- A JSON value, the shape of the serialized HTTP responses. -/
inductive Json
  | null
  | bool (b : Bool)
  | num (q : ℚ)
  | str (s : String)
  | arr (elems : List Json)
  | obj (fields : List (String × Json))

/-- Look up a top-level field of a JSON object. -/
def jsonField (j : Json) (k : String) : Option Json :=
  match j with
  | .obj fs => (fs.find? (fun kv => kv.1 == k)).map (fun kv => kv.2)
  | _ => none

/-- The top-level keys of a JSON object. -/
def jsonTopKeys (j : Json) : List String :=
  match j with
  | .obj fs => fs.map (fun kv => kv.1)
  | _ => []

mutual

/-- Holds when no object key named `phone` or `email` occurs anywhere
in the JSON tree (mutually with the list traversals). -/
def noContactKeys : Json → Bool
  | .obj fs => noContactFields fs
  | .arr xs => noContactArr xs
  | .null => true
  | .bool _ => true
  | .num _ => true
  | .str _ => true

/-- List part of `noContactKeys` for arrays. -/
def noContactArr : List Json → Bool
  | [] => true
  | x :: xs => noContactKeys x && noContactArr xs

/-- Field-list part of `noContactKeys` for objects. -/
def noContactFields : List (String × Json) → Bool
  | [] => true
  | (k, v) :: fs =>
    (k != "phone") && (k != "email") && noContactKeys v && noContactFields fs

end

/-- Query parameters of `GET /api/needs` after parsing (`server.js`
261-271): optional filters, the sort keyword (default `newest` is any
other string), and the parsed pagination integers. -/
structure NeedsQuery where
  category : Option String
  location : Option String
  minBudget : Option ℚ
  maxBudget : Option ℚ
  sort : String
  page : Nat
  limit : Nat

/-- Character-list substring test used to model the Mongo
`$regex` filter (the query location used as a plain pattern). -/
def charsInside (needle : List Char) : List Char → Bool
  | [] => needle.isEmpty
  | c :: t => needle.isPrefixOf (c :: t) || charsInside needle t

/-- Case-insensitive substring containment: the model of
`{ $regex: location, $options: 'i' }` for a pattern without regex
metacharacters. -/
def strContainsCI (hay pat : String) : Bool :=
  charsInside pat.toLower.toList hay.toLower.toList

/-- The Mongo query built by the browse handler (`server.js` 273-282):
`status: 'active'`, optional exact category, optional case-insensitive
location substring, optional inclusive budget bounds. -/
def matchesQuery (q : NeedsQuery) (n : Need) : Bool :=
  (n.status == "active") &&
  (match q.category with | none => true | some c => n.category == c) &&
  (match q.location with | none => true | some l => strContainsCI n.location l) &&
  (match q.minBudget with | none => true | some b => decide (b ≤ n.budget)) &&
  (match q.maxBudget with | none => true | some b => decide (n.budget ≤ b))

/-- Insert into a sorted list (auxiliary of `sortNeeds`). -/
def insertLe (le : Need → Need → Bool) (n : Need) : List Need → List Need
  | [] => [n]
  | m :: t => if le n m then n :: m :: t else m :: insertLe le n t

/-- Insertion sort by a boolean comparison. -/
def sortNeedsBy (le : Need → Need → Bool) : List Need → List Need
  | [] => []
  | n :: t => insertLe le n (sortNeedsBy le t)

/-- The sort option map of the browse handler (`server.js` 284-288):
`budget_high` is budget descending, `budget_low` budget ascending,
`urgent` is timeframe ascending (string order) then newest first, and
anything else is newest first (`createdAt` descending). -/
def sortLe (sort : String) (a b : Need) : Bool :=
  if sort == "budget_high" then decide (b.budget ≤ a.budget)
  else if sort == "budget_low" then decide (a.budget ≤ b.budget)
  else if sort == "urgent" then
    decide (a.timeframe < b.timeframe) ||
      ((a.timeframe == b.timeframe) && decide (b.createdAt ≤ a.createdAt))
  else decide (b.createdAt ≤ a.createdAt)

/-- Sort the filtered needs per the requested sort option. -/
def sortNeeds (sort : String) (l : List Need) : List Need :=
  sortNeedsBy (sortLe sort) l

/-- The populated owner sub-document on the browse endpoint:
`populate('user', 'fullName location rating')` — the named fields plus
the `_id` Mongoose always includes. -/
def ownerJsonBrowse (u : User) : Json :=
  .obj [("_id", .num (u.id : ℚ)), ("fullName", .str u.fullName),
        ("location", .str u.location), ("rating", .num u.rating)]

/-- The populated owner sub-document on the single-need endpoint:
`populate('user', 'fullName location rating createdAt')` plus `_id`. -/
def ownerJsonDetail (u : User) : Json :=
  .obj [("_id", .num (u.id : ℚ)), ("fullName", .str u.fullName),
        ("location", .str u.location), ("rating", .num u.rating),
        ("createdAt", .num (u.createdAt : ℚ))]

/-- Serialization of an embedded offer. -/
def offerJson (o : Offer) : Json :=
  .obj [("fulfiller", .num (o.fulfiller : ℚ)), ("amount", .num o.amount),
        ("message", .str o.message), ("status", .str o.status)]

/-- Serialization of a nullable string field. -/
def optStrJson : Option String → Json
  | none => .null
  | some v => .str v

/-- Serialization of a whole Need document as both read endpoints send
it (`res.json` on the raw Mongoose document): every stored field,
with the `user` reference replaced by the populated owner projection
(or JSON null when the referenced user is gone). -/
def needJson (ownerJson : User → Json) (s : State) (n : Need) : Json :=
  .obj [("_id", .num (n.id : ℚ)),
        ("user", match findUser s n.user with | none => .null | some u => ownerJson u),
        ("title", .str n.title), ("description", .str n.description),
        ("budget", .num n.budget), ("category", .str n.category),
        ("location", .str n.location), ("timeframe", .str n.timeframe),
        ("status", .str n.status), ("photo", optStrJson n.photo),
        ("contactMethods", .arr (n.contactMethods.map Json.str)),
        ("unlockedBy", .arr (n.unlockedBy.map (fun i => Json.num (i : ℚ)))),
        ("offers", .arr (n.offers.map offerJson)),
        ("createdAt", .num (n.createdAt : ℚ))]

/-- The `needs` array of the browse response (`server.js` 294-298):
filter, sort, skip `(page-1)*limit`, take `limit`, each item fully
serialized with the browse owner projection. -/
def listNeedsItems (s : State) (q : NeedsQuery) : List Json :=
  ((sortNeeds q.sort (s.needs.filter (matchesQuery q))).drop
      ((q.page - 1) * q.limit)).take q.limit
    |>.map (needJson ownerJsonBrowse s)

/-- The full browse response body (`server.js` 302-311), pagination
metadata included (`pages` is the ceiling of total / limit). -/
def listNeedsResponse (s : State) (q : NeedsQuery) : Json :=
  .obj [("success", .bool true),
        ("needs", .arr (listNeedsItems s q)),
        ("pagination", .obj
          [("total", .num (((s.needs.filter (matchesQuery q)).length : Nat) : ℚ)),
           ("page", .num (q.page : ℚ)),
           ("pages", .num ((((s.needs.filter (matchesQuery q)).length + q.limit - 1) / q.limit : Nat) : ℚ)),
           ("limit", .num (q.limit : ℚ))])]

/-- The `need` payload of `GET /api/needs/:id` (`server.js` 319-333):
the full document with the detail owner projection, or `none` for 404. -/
def getNeedById (s : State) (i : Nat) : Option Json :=
  (findNeed s i).map (needJson ownerJsonDetail s)

/-- An entry of the offline queue (IndexedDB store `needs`,
`keyPath: 'id'`): a client-generated key and the posting body. -/
structure OfflineNeed where
  id : Nat
  body : PostNeedRequest
deriving DecidableEq

/-- One pass of the service-worker sync loop (`src/app.js`,
`syncNeeds`): walk the queue snapshot in order; for each entry attempt
the POST (the environment `submitOk` says whether the `fetch` resolves
or throws), delete the entry from the queue only when the fetch
resolved, and on a throw just log and continue with the next entry.
Returns (entries attempted in order, remaining queue). -/
def syncNeeds (submitOk : OfflineNeed → Bool) :
    List OfflineNeed → List OfflineNeed × List OfflineNeed
  | [] => ([], [])
  | n :: rest =>
    let r := syncNeeds submitOk rest
    (n :: r.1, if submitOk n then r.2 else n :: r.2)

/-- Credit balance visible at a user id, with the JS null-to-0 coercion
(0 also when no such user exists, for a total function). -/
def balance (s : State) (uid : Nat) : ℚ :=
  jsNum ((findUser s uid).bind User.credits)

/-- A sample asker account (credits stored as JS `null`). -/
def askerA : User :=
  { id := 1, email := "asker@example.com", phone := "0700000001",
    password := "bcryptHashA", fullName := "Asker A", location := "Nairobi",
    gender := "female", role := .asker, credits := none, rating := 5,
    createdAt := 40 }

/-- A sample fulfiller account holding exactly one credit. -/
def fulfillerF : User :=
  { id := 2, email := "fulfiller@example.com", phone := "0700000002",
    password := "bcryptHashF", fullName := "Fulfiller F", location := "Kisumu",
    gender := "male", role := .fulfiller, credits := some 1, rating := 5,
    createdAt := 41 }

/-- A sample active need owned by the asker, not yet unlocked. -/
def needN : Need :=
  { id := 10, user := 1, title := "Plumber for kitchen sink",
    description := "Fix leaking kitchen sink", budget := 1000,
    category := "services", location := "Nairobi", timeframe := "flexible",
    status := "active", photo := none, contactMethods := [],
    unlockedBy := [], offers := [], createdAt := 42 }

/-- The sample store: one asker, one fulfiller with one credit, one
active need, an empty ledger. -/
def s0 : State :=
  { users := [askerA, fulfillerF], needs := [needN], transactions := [] }

/-- Generic find-over-map commutation for an element-map that does not
change the value of the search predicate. -/
theorem find?_map_fix {α : Type} (f : α → α) (p : α → Bool)
    (h : ∀ a, p (f a) = p a) (l : List α) :
    (l.map f).find? p = (l.find? p).map f := by
  induction l with
  | nil => rfl
  | cons a t ih =>
    cases hp : p a with
    | true =>
      have h1 : p (f a) = true := (h a).trans hp
      rw [List.map_cons, List.find?_cons_of_pos _ h1,
        List.find?_cons_of_pos _ hp]
      rfl
    | false =>
      have h1 : ¬ p (f a) = true := by rw [h a, hp]; exact Bool.false_ne_true
      have h2 : ¬ p a = true := by rw [hp]; exact Bool.false_ne_true
      rw [List.map_cons, List.find?_cons_of_neg _ h1,
        List.find?_cons_of_neg _ h2, ih]

/-- The document replacement of `updateUser` keeps ids, so `find?` by
id commutes with it. -/
theorem findUser_updateUser (l : List User) (u : User) (i : Nat) :
    (updateUser l u).find? (fun v => v.id == i) =
      (l.find? (fun v => v.id == i)).map (fun v => if v.id == u.id then u else v) := by
  refine find?_map_fix _ _ (fun a => ?_) l
  by_cases hau : a.id = u.id <;> simp [hau]

/-- The document replacement of `updateNeed` keeps ids, so `find?` by
id commutes with it. -/
theorem findNeed_updateNeed (l : List Need) (n : Need) (i : Nat) :
    (updateNeed l n).find? (fun v => v.id == i) =
      (l.find? (fun v => v.id == i)).map (fun v => if v.id == n.id then n else v) := by
  refine find?_map_fix _ _ (fun a => ?_) l
  by_cases han : a.id = n.id <;> simp [han]

/-- A found user carries the id it was looked up by. -/
theorem findUser_id {s : State} {i : Nat} {u : User}
    (h : findUser s i = some u) : u.id = i := by
  have h0 : s.users.find? (fun v => v.id == i) = some u := h
  have h' := List.find?_some h0
  simpa using h'

/-- A found need carries the id it was looked up by. -/
theorem findNeed_id {s : State} {i : Nat} {n : Need}
    (h : findNeed s i = some n) : n.id = i := by
  have h0 : s.needs.find? (fun v => v.id == i) = some n := h
  have h' := List.find?_some h0
  simpa using h'

/-- Looking up a key other than the replaced document's id is
unaffected by `updateUser`. -/
theorem findUser_updateUser_of_ne (l : List User) (u : User) (i : Nat)
    (w : User) (hf : l.find? (fun v => v.id == i) = some w)
    (hne : w.id ≠ u.id) :
    (updateUser l u).find? (fun v => v.id == i) = some w := by
  rw [findUser_updateUser, hf]
  simp [hne]

/-- Looking up the replaced document's id returns the replacement. -/
theorem findUser_updateUser_of_eq (l : List User) (u : User) (i : Nat)
    (w : User) (hf : l.find? (fun v => v.id == i) = some w)
    (heq : w.id = u.id) :
    (updateUser l u).find? (fun v => v.id == i) = some u := by
  rw [findUser_updateUser, hf]
  simp [heq]

/-- Looking up the replaced document's id returns the replacement. -/
theorem findNeed_updateNeed_of_eq (l : List Need) (n : Need) (i : Nat)
    (w : Need) (hf : l.find? (fun v => v.id == i) = some w)
    (heq : w.id = n.id) :
    (updateNeed l n).find? (fun v => v.id == i) = some n := by
  rw [findNeed_updateNeed, hf]
  simp [heq]

/-- Canonical description of the state after a successful unlock. -/
def unlockedState (s : State) (need : Need) (user : User) (cid : Nat) : State :=
  { users := updateUser s.users { user with credits := some (jsNum user.credits - 1) },
    needs := updateNeed s.needs { need with unlockedBy := need.unlockedBy ++ [cid] },
    transactions := s.transactions ++
      [{ user := cid, need := some need.id, amount := 100,
         type := "unlock", mpesaCode := none, status := "completed" }] }

/-- Unlock either answers an error before any write (identical state)
or takes the success path, whose guards and writes this lemma lays out.
Even the 500 produced by a vanished asker happens after the writes. -/
theorem unlock_cases (s : State) (nid cid : Nat) :
    (unlock s nid cid).2 = s ∨
    ∃ need user, findNeed s nid = some need ∧ findUser s cid = some user ∧
      user.role = Role.fulfiller ∧ cid ∉ need.unlockedBy ∧
      ¬ jsNum user.credits < 1 ∧
      (unlock s nid cid).2 = unlockedState s need user cid := by
  cases hn : findNeed s nid with
  | none => left; simp [unlock, hn]
  | some need =>
    cases hu : findUser s cid with
    | none => left; simp [unlock, hn, hu]
    | some user =>
      by_cases hrole : user.role = Role.fulfiller
      · by_cases hlocked : cid ∈ need.unlockedBy
        · left
          simp only [unlock, hn, hu]
          rw [if_neg (by simp [hrole]), if_pos (by simpa using hlocked)]
        · have hcont : need.unlockedBy.contains cid = false := by simpa using hlocked
          by_cases hcred : jsNum user.credits < 1
          · left
            simp only [unlock, hn, hu]
            rw [if_neg (by simp [hrole]), if_neg (by simpa using hlocked), if_pos hcred]
          · right
            refine ⟨need, user, rfl, rfl, hrole, hlocked, hcred, ?_⟩
            simp only [unlock, hn, hu]
            rw [if_neg (by simp [hrole]), if_neg (by simpa using hlocked), if_neg hcred]
            simp only [unlockedState]
            split <;> rfl
      · left
        simp only [unlock, hn, hu]
        rw [if_pos (by simp [hrole])]

/-- A successful unlock response pins down every guard of the success
path and the resulting state. -/
theorem unlock_ok_state {s s' : State} {nid cid : Nat} {ci : ContactInfo}
    (h : unlock s nid cid = (.ok ci, s')) :
    ∃ need user, findNeed s nid = some need ∧ findUser s cid = some user ∧
      user.role = Role.fulfiller ∧ cid ∉ need.unlockedBy ∧
      ¬ jsNum user.credits < 1 ∧ s' = unlockedState s need user cid := by
  cases hn : findNeed s nid with
  | none => rw [unlock, hn] at h; simp at h
  | some need =>
    cases hu : findUser s cid with
    | none => simp only [unlock, hn, hu] at h; simp at h
    | some user =>
      simp only [unlock, hn, hu] at h
      by_cases hrole : user.role = Role.fulfiller
      · by_cases hlocked : cid ∈ need.unlockedBy
        · rw [if_neg (by simp [hrole]), if_pos (by simpa using hlocked)] at h
          simp at h
        · have hcont : need.unlockedBy.contains cid = false := by simpa using hlocked
          by_cases hcred : jsNum user.credits < 1
          · rw [if_neg (by simp [hrole]), if_neg (by simpa using hlocked), if_pos hcred] at h
            simp at h
          · rw [if_neg (by simp [hrole]), if_neg (by simpa using hlocked), if_neg hcred] at h
            refine ⟨need, user, rfl, rfl, hrole, hlocked, hcred, ?_⟩
            split at h
            · simp at h
            · rw [Prod.mk.injEq] at h
              rw [← h.2]
              rfl
      · rw [if_pos (by simp [hrole])] at h
        simp at h

/-- C1.  When the need exists, the caller is a fulfiller not yet in its
`unlockedBy` holding at least one credit, and the need's owner is an
asker on file, a successful unlock decrements the caller's credits by
exactly 1, appends the caller to `unlockedBy`, appends a completed
unlock Transaction of amount 100 referencing the caller and the need,
and returns exactly the asker's fullName, phone, email, location and
rating — the `ContactInfo` record has no other field, in particular no
password hash. -/
theorem unlock_success_effects
    (s : State) (nid cid : Nat) (need : Need) (user asker : User) (c : ℚ)
    (hn : findNeed s nid = some need)
    (hu : findUser s cid = some user)
    (hrole : user.role = Role.fulfiller)
    (hlocked : cid ∉ need.unlockedBy)
    (hcred : user.credits = some c)
    (hc : 1 ≤ c)
    (hasker : findUser s need.user = some asker)
    (haskerRole : asker.role = Role.asker) :
    (unlock s nid cid).1 =
      UnlockResult.ok { fullName := asker.fullName, phone := asker.phone,
                        email := asker.email, location := asker.location,
                        rating := asker.rating } ∧
    findUser (unlock s nid cid).2 cid = some { user with credits := some (c - 1) } ∧
    findNeed (unlock s nid cid).2 nid =
      some { need with unlockedBy := need.unlockedBy ++ [cid] } ∧
    (unlock s nid cid).2.transactions = s.transactions ++
      [{ user := cid, need := some need.id, amount := 100, type := "unlock",
         mpesaCode := none, status := "completed" }] := by
  have huserid : user.id = cid := findUser_id hu
  have haskerid : asker.id = need.user := findUser_id hasker
  have hne : need.user ≠ cid := by
    intro hEq
    rw [hEq, hu] at hasker
    have h2 : user = asker := by injection hasker
    rw [← h2, hrole] at haskerRole
    exact Role.noConfusion haskerRole
  have hnotlt : ¬ jsNum user.credits < 1 := by
    rw [hcred]
    simp only [jsNum, Option.getD_some, not_lt]
    exact hc
  have hfa : findUser
      { users := updateUser s.users { user with credits := some (jsNum user.credits - 1) },
        needs := updateNeed s.needs { need with unlockedBy := need.unlockedBy ++ [cid] },
        transactions := s.transactions ++
          [{ user := cid, need := some need.id, amount := 100, type := "unlock",
             mpesaCode := none, status := "completed" }] } need.user = some asker := by
    show (updateUser s.users { user with credits := some (jsNum user.credits - 1) }).find?
      (fun v => v.id == need.user) = some asker
    refine findUser_updateUser_of_ne _ _ _ _ hasker ?_
    simpa [haskerid, huserid] using hne
  have hfu : findUser
      { users := updateUser s.users { user with credits := some (jsNum user.credits - 1) },
        needs := updateNeed s.needs { need with unlockedBy := need.unlockedBy ++ [cid] },
        transactions := s.transactions ++
          [{ user := cid, need := some need.id, amount := 100, type := "unlock",
             mpesaCode := none, status := "completed" }] } cid =
      some { user with credits := some (jsNum user.credits - 1) } := by
    show (updateUser s.users { user with credits := some (jsNum user.credits - 1) }).find?
      (fun v => v.id == cid) = some { user with credits := some (jsNum user.credits - 1) }
    exact findUser_updateUser_of_eq _ _ _ _ hu rfl
  have hfn : findNeed
      { users := updateUser s.users { user with credits := some (jsNum user.credits - 1) },
        needs := updateNeed s.needs { need with unlockedBy := need.unlockedBy ++ [cid] },
        transactions := s.transactions ++
          [{ user := cid, need := some need.id, amount := 100, type := "unlock",
             mpesaCode := none, status := "completed" }] } nid =
      some { need with unlockedBy := need.unlockedBy ++ [cid] } := by
    show (updateNeed s.needs { need with unlockedBy := need.unlockedBy ++ [cid] }).find?
      (fun v => v.id == nid) = some { need with unlockedBy := need.unlockedBy ++ [cid] }
    exact findNeed_updateNeed_of_eq _ _ _ _ hn rfl
  simp only [unlock, hn, hu]
  rw [if_neg (by simp [hrole]), if_neg (by simpa using hlocked), if_neg hnotlt]
  rw [hfa]
  refine ⟨rfl, ?_, ?_, rfl⟩
  · rw [hfu, hcred]
    simp [jsNum]
  · rw [hfn]

/-- C1 witness: the success effects at the sample store (fulfiller 2
with one credit unlocks need 10 owned by asker 1). -/
theorem unlock_success_effects_witness :
    (unlock s0 10 2).1 =
      UnlockResult.ok { fullName := askerA.fullName, phone := askerA.phone,
                        email := askerA.email, location := askerA.location,
                        rating := askerA.rating } ∧
    findUser (unlock s0 10 2).2 2 = some { fulfillerF with credits := some (1 - 1) } ∧
    findNeed (unlock s0 10 2).2 10 =
      some { needN with unlockedBy := needN.unlockedBy ++ [2] } ∧
    (unlock s0 10 2).2.transactions = s0.transactions ++
      [{ user := 2, need := some needN.id, amount := 100, type := "unlock",
         mpesaCode := none, status := "completed" }] :=
  unlock_success_effects s0 10 2 needN fulfillerF askerA 1
    (by simp [findNeed, s0, needN])
    (by simp [findUser, s0, askerA, fulfillerF])
    rfl
    (by simp [needN])
    rfl
    le_rfl
    (by simp [findUser, s0, needN, askerA])
    rfl

/-- C2.  After a successful unlock by the same caller, a second unlock
of the same need is rejected with the already-unlocked error (HTTP 400)
and the state — credit balance and transaction ledger included — is
left exactly as it was after the first unlock. -/
theorem unlock_repeat_rejected
    (s s' : State) (nid cid : Nat) (ci : ContactInfo)
    (h : unlock s nid cid = (.ok ci, s')) :
    unlock s' nid cid = (.alreadyUnlocked, s') ∧
    unlockStatus (unlock s' nid cid).1 = 400 := by
  obtain ⟨need, user, hn, hu, hrole, hlocked, hcred, hs⟩ := unlock_ok_state h
  have hn' : findNeed s' nid = some { need with unlockedBy := need.unlockedBy ++ [cid] } := by
    rw [hs]
    show (updateNeed s.needs { need with unlockedBy := need.unlockedBy ++ [cid] }).find?
      (fun v => v.id == nid) = _
    exact findNeed_updateNeed_of_eq _ _ _ _ hn rfl
  have hu' : findUser s' cid = some { user with credits := some (jsNum user.credits - 1) } := by
    rw [hs]
    show (updateUser s.users { user with credits := some (jsNum user.credits - 1) }).find?
      (fun v => v.id == cid) = _
    exact findUser_updateUser_of_eq _ _ _ _ hu rfl
  have hres : unlock s' nid cid = (.alreadyUnlocked, s') := by
    simp only [unlock, hn', hu']
    rw [if_neg (by simp [hrole]), if_pos (by simp)]
  exact ⟨hres, by rw [hres]; rfl⟩

/-- C2 witness: a second unlock of need 10 by fulfiller 2 right after
the first one is rejected with HTTP 400 and no state change. -/
theorem unlock_repeat_rejected_witness :
    unlock (unlock s0 10 2).2 10 2 = (.alreadyUnlocked, (unlock s0 10 2).2) ∧
    unlockStatus (unlock (unlock s0 10 2).2 10 2).1 = 400 :=
  unlock_repeat_rejected s0 (unlock s0 10 2).2 10 2
    { fullName := askerA.fullName, phone := askerA.phone,
      email := askerA.email, location := askerA.location,
      rating := askerA.rating }
    (by
      rw [Prod.ext_iff]
      exact ⟨unlock_success_effects_witness.1, rfl⟩)

/-- C3.  The three error gates of unlock answer without touching any
record: a fulfiller with zero credits gets the insufficient-credits
error (HTTP 400, no transaction, no `unlockedBy` change — the state is
returned untouched); a missing need gets 404; a caller whose role is
not fulfiller gets 403. -/
theorem unlock_errors_no_mutation (s : State) (nid cid : Nat) :
    (∀ need user, findNeed s nid = some need → findUser s cid = some user →
      user.role = Role.fulfiller → cid ∉ need.unlockedBy →
      user.credits = some 0 →
      unlock s nid cid = (.insufficientCredits, s) ∧
      unlockStatus UnlockResult.insufficientCredits = 400) ∧
    (findNeed s nid = none →
      unlock s nid cid = (.notFound, s) ∧
      unlockStatus UnlockResult.notFound = 404) ∧
    (∀ need user, findNeed s nid = some need → findUser s cid = some user →
      user.role ≠ Role.fulfiller →
      unlock s nid cid = (.forbidden, s) ∧
      unlockStatus UnlockResult.forbidden = 403) := by
  refine ⟨?_, ?_, ?_⟩
  · intro need user hn hu hrole hlocked hcred
    refine ⟨?_, rfl⟩
    have hlt : jsNum user.credits < 1 := by
      rw [hcred]
      norm_num [jsNum]
    simp only [unlock, hn, hu]
    rw [if_neg (by simp [hrole]), if_neg (by simpa using hlocked), if_pos hlt]
  · intro hn
    refine ⟨?_, rfl⟩
    simp [unlock, hn]
  · intro need user hn hu hrole
    refine ⟨?_, rfl⟩
    simp only [unlock, hn, hu]
    rw [if_pos (by simp [hrole])]

/-- A sample fulfiller with an empty credit balance. -/
def fulfillerZ : User :=
  { id := 3, email := "zero@example.com", phone := "0700000003",
    password := "bcryptHashZ", fullName := "Fulfiller Z", location := "Nakuru",
    gender := "other", role := .fulfiller, credits := some 0, rating := 5,
    createdAt := 43 }

/-- Sample store with a zero-credit fulfiller. -/
def s3 : State :=
  { users := [askerA, fulfillerZ], needs := [needN], transactions := [] }

/-- C3 witness: zero-credit fulfiller 3 gets 400 on need 10, need 99 is
404, and asker 1 gets 403 — each time with the state untouched. -/
theorem unlock_errors_no_mutation_witness :
    (unlock s3 10 3 = (.insufficientCredits, s3) ∧
      unlockStatus UnlockResult.insufficientCredits = 400) ∧
    (unlock s3 99 3 = (.notFound, s3) ∧
      unlockStatus UnlockResult.notFound = 404) ∧
    (unlock s3 10 1 = (.forbidden, s3) ∧
      unlockStatus UnlockResult.forbidden = 403) :=
  ⟨(unlock_errors_no_mutation s3 10 3).1 needN fulfillerZ
      (by simp [findNeed, s3, needN])
      (by simp [findUser, s3, askerA, fulfillerZ])
      rfl
      (by simp [needN])
      rfl,
   (unlock_errors_no_mutation s3 99 3).2.1
      (by simp [findNeed, s3, needN]),
   (unlock_errors_no_mutation s3 10 1).2.2 needN askerA
      (by simp [findNeed, s3, needN])
      (by simp [findUser, s3, askerA])
      (by simp [askerA])⟩

/-- addCredits never touches the Need collection. -/
theorem addCredits_needs_unchanged (s : State) (uid : Nat) (amount : ℚ)
    (code : Option String) : (addCredits s uid amount code).2.needs = s.needs := by
  rcases code with _ | c
  · rfl
  · simp only [addCredits]
    by_cases hp : ¬ jsStartsWith c "MPS"
    · rw [if_pos hp]
    · rw [if_neg hp]
      cases hf : findUser s uid with
      | none => rfl
      | some u =>
        dsimp only
        split <;> rfl

/-- postNeed either leaves the Need collection unchanged or appends a
single fresh record whose `unlockedBy` starts empty. -/
theorem postNeed_needs_cases (s : State) (cid : Nat) (r : PostNeedRequest)
    (newId now : Nat) :
    (postNeed s cid r newId now).2.needs = s.needs ∨
    ∃ nw, (postNeed s cid r newId now).2.needs = s.needs ++ [nw] ∧
      nw.unlockedBy = [] := by
  simp only [postNeed]
  by_cases hv : r.title = "" ∨ r.description = "" ∨ r.category = "" ∨ r.location = ""
  · rw [if_pos hv]
    exact Or.inl rfl
  · rw [if_neg hv]
    cases hf : findUser s cid with
    | none => exact Or.inl rfl
    | some u =>
      dsimp only
      by_cases hrole : u.role = Role.asker
      · rw [if_neg (by simp [hrole])]
        by_cases hval : needDocValid
            { id := newId, user := cid, title := jsTrim r.title,
              description := jsTrim r.description, budget := r.budget,
              category := r.category, location := r.location,
              timeframe := r.timeframe.getD "flexible", status := "active",
              photo := r.photo, contactMethods := [], unlockedBy := [],
              offers := [], createdAt := now } = true
        · rw [if_pos hval]
          exact Or.inr ⟨_, rfl, rfl⟩
        · rw [if_neg hval]
          exact Or.inl rfl
      · rw [if_pos (by simp [hrole])]
        exact Or.inl rfl

/-- C8.  The at-most-once invariant on `unlockedBy`: if every need's
`unlockedBy` list is duplicate-free, it stays duplicate-free after any
unlock, any credit purchase and any posted need — unlock re-checks
membership before appending, addCredits does not touch needs, and a
fresh need starts with an empty list. -/
theorem unlockedBy_nodup_preserved (s : State)
    (hinv : ∀ n ∈ s.needs, n.unlockedBy.Nodup) :
    (∀ nid cid, ∀ n ∈ (unlock s nid cid).2.needs, n.unlockedBy.Nodup) ∧
    (∀ uid amount code, ∀ n ∈ (addCredits s uid amount code).2.needs,
      n.unlockedBy.Nodup) ∧
    (∀ cid r newId now, ∀ n ∈ (postNeed s cid r newId now).2.needs,
      n.unlockedBy.Nodup) := by
  refine ⟨?_, ?_, ?_⟩
  · intro nid cid n hmem
    rcases unlock_cases s nid cid with h | ⟨need, user, hn, hu, hrole, hlocked, hcred, hs⟩
    · rw [h] at hmem
      exact hinv n hmem
    · rw [hs] at hmem
      simp only [unlockedState, updateNeed] at hmem
      rcases List.mem_map.mp hmem with ⟨v, hv, heq⟩
      by_cases hid : v.id == need.id
      · rw [if_pos hid] at heq
        rw [← heq]
        have hneedmem : need ∈ s.needs := List.mem_of_find?_eq_some hn
        have hnd : need.unlockedBy.Nodup := hinv need hneedmem
        simp [List.nodup_append, hnd, hlocked]
      · rw [if_neg hid] at heq
        rw [← heq]
        exact hinv v hv
  · intro uid amount code n hmem
    rw [addCredits_needs_unchanged] at hmem
    exact hinv n hmem
  · intro cid r newId now n hmem
    rcases postNeed_needs_cases s cid r newId now with h | ⟨nw, h, hempty⟩
    · rw [h] at hmem
      exact hinv n hmem
    · rw [h] at hmem
      rcases List.mem_append.mp hmem with h2 | h2
      · exact hinv n h2
      · rw [List.mem_singleton.mp h2, hempty]
        exact List.nodup_nil

/-- A valid request used by several witnesses. -/
def reqOk : PostNeedRequest :=
  { title := "House cleaning", description := "Three bedrooms",
    budget := 800, category := "services", location := "Mombasa",
    timeframe := none, photo := none }

/-- C8 witness: after fulfiller 2 unlocks need 10, its `unlockedBy`
list `[2]` is duplicate-free; the same invariant applications cover a
credit purchase and a posted need at the sample store. -/
theorem unlockedBy_nodup_preserved_witness :
    ({ needN with unlockedBy := needN.unlockedBy ++ [2] } : Need).unlockedBy.Nodup ∧
    (needN.unlockedBy.Nodup ∧ needN.unlockedBy.Nodup) := by
  have hinv : ∀ n ∈ s0.needs, n.unlockedBy.Nodup := by
    intro n hn
    simp only [s0] at hn
    rw [List.mem_singleton.mp hn]
    simp [needN]
  have h := unlockedBy_nodup_preserved s0 hinv
  refine ⟨?_, ?_, ?_⟩
  · refine h.1 10 2 _ ?_
    have : (unlock s0 10 2).2.needs = [{ needN with unlockedBy := needN.unlockedBy ++ [2] }] := by
      norm_num [unlock, findNeed, findUser, updateUser, updateNeed, jsNum,
        s0, askerA, fulfillerF, needN, unlockedState]
    rw [this]
    exact List.mem_singleton.mpr rfl
  · refine h.2.1 2 100 (some "MPS77") needN ?_
    rw [addCredits_needs_unchanged]
    simp [s0]
  · refine h.2.2 1 reqOk 99 7 needN ?_
    rcases postNeed_needs_cases s0 1 reqOk 99 7 with hc | ⟨nw, hc, _⟩
    · rw [hc]; simp [s0]
    · rw [hc]
      exact List.mem_append_left _ (by simp [s0])

/-- C9 (amended).  addCredits validates only the payment-code prefix:
for any user on file — any role, askers included — and any amount, a
code starting with `MPS` passes the gate and the balance becomes
`credits + amount/100` (so a negative amount strictly decreases it).
With a non-negative amount the call succeeds and appends a completed
`credit_purchase` Transaction; with a negative amount the Transaction
insert fails its `amount ≥ 0` schema validation, so the call answers
500 and appends nothing — but the balance update has already been
saved and stays. -/
theorem addCredits_code_gate_only
    (s : State) (uid : Nat) (amount : ℚ) (code : String) (u : User)
    (hu : findUser s uid = some u)
    (hc : jsStartsWith code "MPS" = true) :
    (0 ≤ amount →
      addCredits s uid amount (some code) =
        (.ok (jsNum u.credits + amount / 100),
         { s with
             users := updateUser s.users
               { u with credits := some (jsNum u.credits + amount / 100) },
             transactions := s.transactions ++
               [{ user := uid, need := none, amount := amount,
                  type := "credit_purchase", mpesaCode := some code,
                  status := "completed" }] })) ∧
    (amount < 0 →
      addCredits s uid amount (some code) =
        (.serverError,
         { s with
             users := updateUser s.users
               { u with credits := some (jsNum u.credits + amount / 100) } })) := by
  constructor
  · intro hpos
    simp only [addCredits]
    rw [if_neg (by simp [hc])]
    rw [hu]
    dsimp only
    rw [if_neg (not_lt.mpr hpos)]
  · intro hneg
    simp only [addCredits]
    rw [if_neg (by simp [hc])]
    rw [hu]
    dsimp only
    rw [if_pos hneg]

/-- C9 counterexample: an asker (no role check) sending amount −100
with a well-formed code does not get a success response and no
Transaction is recorded — contrary to the claim — yet the balance has
still been decreased from 0 to −1. -/
theorem addCredits_negative_no_success_yet_debited :
    (addCredits s0 1 (-100) (some "MPS123")).1 = AddCreditsResult.serverError ∧
    addCreditsStatus (addCredits s0 1 (-100) (some "MPS123")).1 = 500 ∧
    (addCredits s0 1 (-100) (some "MPS123")).2.transactions = [] ∧
    balance s0 1 = 0 ∧
    balance (addCredits s0 1 (-100) (some "MPS123")).2 1 = -1 := by
  refine ⟨?_, ?_, ?_, ?_, ?_⟩ <;>
    norm_num [addCredits, addCreditsStatus, balance, findUser, updateUser,
      jsNum, jsStartsWith, s0, askerA, fulfillerF]

/-- C9 witness: the amended characterization applied at the sample
store, for the asker (role not checked), once with amount 100 and once
with amount −100. -/
theorem addCredits_code_gate_only_witness :
    (addCredits s0 1 100 (some "MPS123") =
      (.ok (jsNum askerA.credits + 100 / 100),
       { s0 with
           users := updateUser s0.users
             { askerA with credits := some (jsNum askerA.credits + 100 / 100) },
           transactions := s0.transactions ++
             [{ user := 1, need := none, amount := 100,
                type := "credit_purchase", mpesaCode := some "MPS123",
                status := "completed" }] })) ∧
    (addCredits s0 1 (-100) (some "MPS123") =
      (.serverError,
       { s0 with
           users := updateUser s0.users
             { askerA with credits := some (jsNum askerA.credits + (-100) / 100) } })) :=
  ⟨(addCredits_code_gate_only s0 1 100 "MPS123" askerA
      (by simp [findUser, s0, askerA]) (by decide)).1 (by norm_num),
   (addCredits_code_gate_only s0 1 (-100) "MPS123" askerA
      (by simp [findUser, s0, askerA]) (by decide)).2 (by norm_num)⟩

/-- Caller credits after a successful unlock, without assuming anything
about the need's owner: exactly one credit less. -/
theorem unlock_success_caller_credits
    (s : State) (nid cid : Nat) (need : Need) (user : User)
    (hn : findNeed s nid = some need) (hu : findUser s cid = some user)
    (hrole : user.role = Role.fulfiller) (hlocked : cid ∉ need.unlockedBy)
    (hnotlt : ¬ jsNum user.credits < 1) :
    (findUser (unlock s nid cid).2 cid).map User.credits =
      some (some (jsNum user.credits - 1)) := by
  have hfu : findUser
      { users := updateUser s.users { user with credits := some (jsNum user.credits - 1) },
        needs := updateNeed s.needs { need with unlockedBy := need.unlockedBy ++ [cid] },
        transactions := s.transactions ++
          [{ user := cid, need := some need.id, amount := 100, type := "unlock",
             mpesaCode := none, status := "completed" }] } cid =
      some { user with credits := some (jsNum user.credits - 1) } := by
    show (updateUser s.users { user with credits := some (jsNum user.credits - 1) }).find?
      (fun v => v.id == cid) = some { user with credits := some (jsNum user.credits - 1) }
    exact findUser_updateUser_of_eq _ _ _ _ hu rfl
  simp only [unlock, hn, hu]
  rw [if_neg (by simp [hrole]), if_neg (by simpa using hlocked), if_neg hnotlt]
  split
  · rw [hfu]
    rfl
  · rw [hfu]
    rfl

/-- C6 (amended).  Buying one credit (amount 100, valid code) and then
successfully unlocking a need returns the fulfiller's balance to its
starting value; the balance never increases under an unlock; and it
never decreases under a purchase of non-negative amount (the
non-negativity proviso is necessary: see the counterexample, a negative
amount passes the code gate and strictly decreases the balance). -/
theorem credit_roundtrip_and_monotonicity :
    (∀ s uid nid (code : String) u (c : ℚ) need,
      findUser s uid = some u → u.credits = some c → 0 ≤ c →
      u.role = Role.fulfiller → jsStartsWith code "MPS" = true →
      findNeed s nid = some need → uid ∉ need.unlockedBy →
      (findUser (unlock (addCredits s uid 100 (some code)).2 nid uid).2 uid).map
        User.credits = some (some c)) ∧
    (∀ s nid uid, balance (unlock s nid uid).2 uid ≤ balance s uid) ∧
    (∀ s uid amount (code : Option String), 0 ≤ amount →
      balance s uid ≤ balance (addCredits s uid amount code).2 uid) := by
  refine ⟨?_, ?_, ?_⟩
  · intro s uid nid code u c need hu hcred hc hrole hcode hn hlocked
    have h1 := (addCredits_code_gate_only s uid 100 code u hu hcode).1 (by norm_num)
    have hs1 : (addCredits s uid 100 (some code)).2 =
        { s with
            users := updateUser s.users
              { u with credits := some (jsNum u.credits + 100 / 100) },
            transactions := s.transactions ++
              [{ user := uid, need := none, amount := 100,
                 type := "credit_purchase", mpesaCode := some code,
                 status := "completed" }] } := by
      rw [h1]
    rw [hs1]
    have hn1 : findNeed
        { s with
            users := updateUser s.users
              { u with credits := some (jsNum u.credits + 100 / 100) },
            transactions := s.transactions ++
              [{ user := uid, need := none, amount := 100,
                 type := "credit_purchase", mpesaCode := some code,
                 status := "completed" }] } nid = some need := hn
    have hu1 : findUser
        { s with
            users := updateUser s.users
              { u with credits := some (jsNum u.credits + 100 / 100) },
            transactions := s.transactions ++
              [{ user := uid, need := none, amount := 100,
                 type := "credit_purchase", mpesaCode := some code,
                 status := "completed" }] } uid =
        some { u with credits := some (jsNum u.credits + 100 / 100) } := by
      show (updateUser s.users { u with credits := some (jsNum u.credits + 100 / 100) }).find?
        (fun v => v.id == uid) = _
      exact findUser_updateUser_of_eq _ _ _ _ hu rfl
    have hnotlt : ¬ jsNum ({ u with credits := some (jsNum u.credits + 100 / 100) } : User).credits < 1 := by
      simp only [jsNum, hcred, Option.getD_some, not_lt]
      norm_num
      exact hc
    have hres := unlock_success_caller_credits _ nid uid need
      { u with credits := some (jsNum u.credits + 100 / 100) }
      hn1 hu1 hrole hlocked hnotlt
    rw [hres]
    simp only [jsNum, hcred, Option.getD_some]
    norm_num
  · intro s nid uid
    rcases unlock_cases s nid uid with h | ⟨need, user, hn, hu, hrole, hlocked, hcred, hs⟩
    · rw [h]
    · rw [hs]
      have hafter : findUser (unlockedState s need user uid) uid =
          some { user with credits := some (jsNum user.credits - 1) } := by
        show (updateUser s.users { user with credits := some (jsNum user.credits - 1) }).find?
          (fun v => v.id == uid) = _
        exact findUser_updateUser_of_eq _ _ _ _ hu rfl
      simp only [balance, hafter, hu]
      simp [jsNum]
  · intro s uid amount code hpos
    rcases code with _ | cs
    · exact le_rfl
    · by_cases hpfx : jsStartsWith cs "MPS" = true
      · cases hf : findUser s uid with
        | none =>
          have hsame : (addCredits s uid amount (some cs)).2 = s := by
            simp only [addCredits]
            rw [if_neg (by simp [hpfx]), hf]
          rw [hsame]
        | some u =>
          have hs2 : (addCredits s uid amount (some cs)).2 =
              { s with
                  users := updateUser s.users
                    { u with credits := some (jsNum u.credits + amount / 100) },
                  transactions := s.transactions ++
                    [{ user := uid, need := none, amount := amount,
                       type := "credit_purchase", mpesaCode := some cs,
                       status := "completed" }] } := by
            rw [(addCredits_code_gate_only s uid amount cs u hf hpfx).1 hpos]
          rw [hs2]
          have hafter : findUser
              { s with
                  users := updateUser s.users
                    { u with credits := some (jsNum u.credits + amount / 100) },
                  transactions := s.transactions ++
                    [{ user := uid, need := none, amount := amount,
                       type := "credit_purchase", mpesaCode := some cs,
                       status := "completed" }] } uid =
              some { u with credits := some (jsNum u.credits + amount / 100) } := by
            show (updateUser s.users { u with credits := some (jsNum u.credits + amount / 100) }).find?
              (fun v => v.id == uid) = _
            exact findUser_updateUser_of_eq _ _ _ _ hf rfl
          simp only [balance, hafter, hf]
          simp only [Option.some_bind, jsNum, Option.getD_some]
          have hdiv : 0 ≤ amount / 100 := by positivity
          linarith
      · have hsame : (addCredits s uid amount (some cs)).2 = s := by
          simp only [addCredits]
          rw [if_pos hpfx]
        rw [hsame]

/-- C6 counterexample: a purchase of amount −100 with a well-formed
code strictly decreases the zero-credit fulfiller's balance, so the
balance is not non-decreasing under arbitrary purchases. -/
theorem purchase_decreases_balance :
    balance (addCredits s3 3 (-100) (some "MPS9")).2 3 < balance s3 3 := by
  norm_num [balance, addCredits, findUser, updateUser, jsNum, jsStartsWith,
    s3, askerA, fulfillerZ]

/-- C6 witness: roundtrip and both monotonicity directions applied at
the sample store (fulfiller 2 holding one credit, need 10). -/
theorem credit_roundtrip_and_monotonicity_witness :
    (findUser (unlock (addCredits s0 2 100 (some "MPS77")).2 10 2).2 2).map
      User.credits = some (some 1) ∧
    balance (unlock s0 10 2).2 2 ≤ balance s0 2 ∧
    balance s0 2 ≤ balance (addCredits s0 2 100 (some "MPS77")).2 2 :=
  ⟨credit_roundtrip_and_monotonicity.1 s0 2 10 "MPS77" fulfillerF 1 needN
     (by simp [findUser, s0, askerA, fulfillerF]) rfl (by norm_num) rfl
     (by decide) (by simp [findNeed, s0, needN]) (by simp [needN]),
   credit_roundtrip_and_monotonicity.2.1 s0 10 2,
   credit_roundtrip_and_monotonicity.2.2 s0 2 100 (some "MPS77") (by norm_num)⟩

/-- C4 (amended).  A post-need request with a negative budget or an
out-of-enum category sails through the express-validator stage (which
only checks nonemptiness and numericness), and is rejected by the
Mongoose schema validation on `save()`: no Need record is created, but
the response is the generic 500 of the route's catch block, not a 400
ValidationError. -/
theorem postNeed_schema_violation_500
    (s : State) (cid : Nat) (r : PostNeedRequest) (newId now : Nat) (u : User)
    (hu : findUser s cid = some u) (hrole : u.role = Role.asker)
    (ht : r.title ≠ "") (hd : r.description ≠ "") (hcat : r.category ≠ "")
    (hloc : r.location ≠ "")
    (hbad : r.budget < 0 ∨ r.category ∉ categoryEnum) :
    postNeed s cid r newId now = (.serverError, s) ∧
    postNeedStatus (postNeed s cid r newId now).1 = 500 ∧
    (postNeed s cid r newId now).2.needs = s.needs := by
  have hmain : postNeed s cid r newId now = (.serverError, s) := by
    simp only [postNeed]
    rw [if_neg (by simp [ht, hd, hcat, hloc]), hu]
    dsimp only
    rw [if_neg (by simp [hrole])]
    have hval : ¬ needDocValid
        { id := newId, user := cid, title := jsTrim r.title,
          description := jsTrim r.description, budget := r.budget,
          category := r.category, location := r.location,
          timeframe := r.timeframe.getD "flexible", status := "active",
          photo := r.photo, contactMethods := [], unlockedBy := [],
          offers := [], createdAt := now } = true := by
      rcases hbad with hb | hc
      · simp [needDocValid, decide_eq_false (not_le.mpr hb)]
      · simp [needDocValid, hc]
    rw [if_neg hval]
  exact ⟨hmain, by rw [hmain]; rfl, by rw [hmain]⟩

/-- A syntactically well-formed request with a negative budget. -/
def reqNegBudget : PostNeedRequest :=
  { title := "Plumber for kitchen sink", description := "Fix leaking sink",
    budget := -5, category := "services", location := "Nairobi",
    timeframe := none, photo := none }

/-- A syntactically well-formed request with a category outside the
closed enum. -/
def reqBadCategory : PostNeedRequest :=
  { title := "Plumber for kitchen sink", description := "Fix leaking sink",
    budget := 1000, category := "weapons", location := "Nairobi",
    timeframe := none, photo := none }

/-- C4 counterexample: both a negative budget and an out-of-enum
category are answered with HTTP 500 — not the claimed 400 — while no
record is created. -/
theorem postNeed_rejects_with_500_not_400 :
    postNeedStatus (postNeed s0 1 reqNegBudget 99 7).1 = 500 ∧
    postNeedStatus (postNeed s0 1 reqNegBudget 99 7).1 ≠ 400 ∧
    (postNeed s0 1 reqNegBudget 99 7).2 = s0 ∧
    postNeedStatus (postNeed s0 1 reqBadCategory 99 7).1 = 500 ∧
    postNeedStatus (postNeed s0 1 reqBadCategory 99 7).1 ≠ 400 ∧
    (postNeed s0 1 reqBadCategory 99 7).2 = s0 := by
  refine ⟨?_, ?_, ?_, ?_, ?_, ?_⟩ <;> decide

/-- C4 witness: the amended statement applied to the negative-budget
request posted by the sample asker. -/
theorem postNeed_schema_violation_500_witness :
    postNeed s0 1 reqNegBudget 99 7 = (.serverError, s0) ∧
    postNeedStatus (postNeed s0 1 reqNegBudget 99 7).1 = 500 ∧
    (postNeed s0 1 reqNegBudget 99 7).2.needs = s0.needs :=
  postNeed_schema_violation_500 s0 1 reqNegBudget 99 7 askerA
    (by simp [findUser, s0, askerA]) rfl (by decide) (by decide) (by decide)
    (by decide) (Or.inl (by norm_num [reqNegBudget]))

/-- An array of string leaves has no object keys at all. -/
theorem noContactArr_map_str (l : List String) :
    noContactArr (l.map Json.str) = true := by
  induction l with
  | nil => rfl
  | cons a t ih => simp [noContactArr, noContactKeys, ih]

/-- An array of number leaves has no object keys at all. -/
theorem noContactArr_map_num (l : List Nat) :
    noContactArr (l.map (fun i => Json.num (i : ℚ))) = true := by
  induction l with
  | nil => rfl
  | cons a t ih =>
    simp only [List.map_cons, noContactArr, noContactKeys, Bool.true_and]
    exact ih

/-- A serialized offer never carries a phone or email key. -/
theorem noContactKeys_offerJson (o : Offer) :
    noContactKeys (offerJson o) = true := by
  simp [offerJson, noContactKeys, noContactFields]

/-- An array of serialized offers never carries a phone or email key. -/
theorem noContactArr_map_offer (l : List Offer) :
    noContactArr (l.map offerJson) = true := by
  induction l with
  | nil => rfl
  | cons a t ih => simp [noContactArr, noContactKeys_offerJson, ih]

/-- The browse owner projection exposes only `_id`, `fullName`,
`location` and `rating` — never phone or email. -/
theorem noContactKeys_ownerJsonBrowse (u : User) :
    noContactKeys (ownerJsonBrowse u) = true := by
  simp [ownerJsonBrowse, noContactKeys, noContactFields]

/-- A fully serialized need on the browse endpoint has no phone or
email key anywhere in its tree. -/
theorem noContactKeys_needJson_browse (s : State) (n : Need) :
    noContactKeys (needJson ownerJsonBrowse s n) = true := by
  cases hf : findUser s n.user <;> cases hp : n.photo <;>
    simp only [needJson, hf, hp, optStrJson, ownerJsonBrowse, noContactKeys,
      noContactFields, noContactArr_map_str, noContactArr_map_num,
      noContactArr_map_offer, Bool.and_true, Bool.true_and] <;>
    decide

/-- A list whose members are all key-free is key-free as an array. -/
theorem noContactArr_of_forall :
    ∀ (l : List Json), (∀ x ∈ l, noContactKeys x = true) →
      noContactArr l = true := by
  intro l
  induction l with
  | nil => intro _; rfl
  | cons a t ih =>
    intro h
    simp only [noContactArr, h a (List.mem_cons_self a t),
      ih (fun x hx => h x (List.mem_cons_of_mem a hx)), Bool.and_self]

/-- C5.  Under every combination of category, location and budget
filters, every sort option and any pagination, the entire browse
response (needs array and pagination metadata) contains no object key
named `phone` or `email` anywhere: the needs carry no contact fields
and the populated owner is projected to fullName/location/rating. -/
theorem listNeeds_response_never_contains_contact_keys
    (s : State) (q : NeedsQuery) :
    noContactKeys (listNeedsResponse s q) = true := by
  have hitems : ∀ j ∈ listNeedsItems s q, noContactKeys j = true := by
    intro j hj
    simp only [listNeedsItems] at hj
    rcases List.mem_map.mp hj with ⟨n, _, heq⟩
    exact heq ▸ noContactKeys_needJson_browse s n
  have harr : noContactArr (listNeedsItems s q) = true :=
    noContactArr_of_forall _ hitems
  simp only [listNeedsResponse, noContactKeys, noContactFields, noContactArr,
    harr, Bool.and_true, Bool.true_and]
  decide

/-- Insertion keeps list membership. -/
theorem mem_insertLe {le : Need → Need → Bool} {n x : Need} :
    ∀ {l : List Need}, x ∈ insertLe le n l → x = n ∨ x ∈ l := by
  intro l
  induction l with
  | nil =>
    intro h
    simp [insertLe] at h
    exact Or.inl h
  | cons m t ih =>
    intro h
    simp only [insertLe] at h
    by_cases hle : le n m
    · rw [if_pos hle] at h
      rcases List.mem_cons.mp h with h2 | h2
      · exact Or.inl h2
      · exact Or.inr h2
    · rw [if_neg hle] at h
      rcases List.mem_cons.mp h with h2 | h2
      · exact Or.inr (h2 ▸ List.mem_cons_self m t)
      · rcases ih h2 with h3 | h3
        · exact Or.inl h3
        · exact Or.inr (List.mem_cons_of_mem m h3)

/-- The insertion sort of the browse endpoint only reorders: every
element of the output was in the input. -/
theorem mem_sortNeedsBy {le : Need → Need → Bool} {x : Need} :
    ∀ {l : List Need}, x ∈ sortNeedsBy le l → x ∈ l := by
  intro l
  induction l with
  | nil => intro h; simp [sortNeedsBy] at h
  | cons n t ih =>
    intro h
    simp only [sortNeedsBy] at h
    rcases mem_insertLe h with h2 | h2
    · exact h2 ▸ List.mem_cons_self n t
    · exact List.mem_cons_of_mem n (ih h2)

/-- C10 (amended).  Both read endpoints serialize the complete Need
document — `unlockedBy`, `offers` and `contactMethods` included, no
sanitized projection — and every response item is such a serialization
of a stored need.  The populated owner sub-document carries `_id`,
`fullName`, `location` and `rating` on the browse endpoint, plus
`createdAt` on the single-need endpoint. -/
theorem read_endpoints_return_full_document :
    (∀ (s : State) (q : NeedsQuery) (j : Json), j ∈ listNeedsItems s q →
      ∃ n, n ∈ s.needs ∧ j = needJson ownerJsonBrowse s n) ∧
    (∀ (s : State) (i : Nat) (j : Json), getNeedById s i = some j →
      ∃ n, findNeed s i = some n ∧ j = needJson ownerJsonDetail s n) ∧
    (∀ (f : User → Json) (s : State) (n : Need),
      jsonField (needJson f s n) "unlockedBy" =
        some (.arr (n.unlockedBy.map (fun i => Json.num (i : ℚ)))) ∧
      jsonField (needJson f s n) "offers" =
        some (.arr (n.offers.map offerJson)) ∧
      jsonField (needJson f s n) "contactMethods" =
        some (.arr (n.contactMethods.map Json.str))) ∧
    (∀ u : User,
      jsonTopKeys (ownerJsonBrowse u) = ["_id", "fullName", "location", "rating"] ∧
      jsonTopKeys (ownerJsonDetail u) =
        ["_id", "fullName", "location", "rating", "createdAt"]) := by
  refine ⟨?_, ?_, ?_, ?_⟩
  · intro s q j hj
    simp only [listNeedsItems] at hj
    rcases List.mem_map.mp hj with ⟨n, hn, heq⟩
    refine ⟨n, ?_, heq.symm⟩
    have h1 := List.mem_of_mem_take hn
    have h2 := List.mem_of_mem_drop h1
    have h3 := mem_sortNeedsBy h2
    exact List.mem_of_mem_filter h3
  · intro s i j hj
    cases hf : findNeed s i with
    | none => rw [getNeedById, hf] at hj; simp at hj
    | some n =>
      rw [getNeedById, hf] at hj
      exact ⟨n, rfl, by simpa using hj.symm⟩
  · intro f s n
    exact ⟨rfl, rfl, rfl⟩
  · intro u
    exact ⟨rfl, rfl⟩

/-- C10 counterexample: on the single-need endpoint the populated owner
sub-document of need 10 contains a `createdAt` key, so it is not
restricted to fullName, location and rating as claimed. -/
theorem getNeed_owner_not_restricted_to_three_fields :
    getNeedById s0 10 = some (needJson ownerJsonDetail s0 needN) ∧
    jsonField (needJson ownerJsonDetail s0 needN) "user" =
      some (ownerJsonDetail askerA) ∧
    "createdAt" ∈ jsonTopKeys (ownerJsonDetail askerA) ∧
    "createdAt" ∉ (["fullName", "location", "rating"] : List String) := by
  refine ⟨rfl, rfl, ?_, ?_⟩ <;> decide

/-- The default browse query: no filters, newest first, first page of
ten, as the handler defaults them. -/
def qDefault : NeedsQuery :=
  { category := none, location := none, minBudget := none, maxBudget := none,
    sort := "newest", page := 1, limit := 10 }

/-- C10 witness: the characterization applied to the default browse of
the sample store and to GET of need 10. -/
theorem read_endpoints_return_full_document_witness :
    (∃ n, n ∈ s0.needs ∧
      needJson ownerJsonBrowse s0 needN = needJson ownerJsonBrowse s0 n) ∧
    (∃ n, findNeed s0 10 = some n ∧
      needJson ownerJsonDetail s0 needN = needJson ownerJsonDetail s0 n) :=
  ⟨read_endpoints_return_full_document.1 s0 qDefault
      (needJson ownerJsonBrowse s0 needN)
      (by
        rw [show listNeedsItems s0 qDefault =
          [needJson ownerJsonBrowse s0 needN] from rfl]
        exact List.mem_singleton.mpr rfl),
   read_endpoints_return_full_document.2.1 s0 10
      (needJson ownerJsonDetail s0 needN) rfl⟩

/-- C7.  One pass of the offline sync attempts every queued entry in
insertion order (the first component lists the attempts, which are the
queue itself, in order), removes exactly the entries whose submission
resolved, and keeps every failed entry — a failure does not stop the
pass, since the attempts list never depends on the outcomes. -/
theorem syncNeeds_fifo_remove_only_on_success
    (submitOk : OfflineNeed → Bool) (queue : List OfflineNeed) :
    (syncNeeds submitOk queue).1 = queue ∧
    (syncNeeds submitOk queue).2 = queue.filter (fun n => ! submitOk n) := by
  induction queue with
  | nil => exact ⟨rfl, rfl⟩
  | cons n rest ih =>
    constructor
    · simp [syncNeeds, ih.1]
    · by_cases h : submitOk n <;> simp [syncNeeds, h, ih.2, List.filter]

end FulfillMe
